import Mathlib

/-!
Verification of the audio-transcription core of the consulta application
(src/app.py), through a shallow embedding of its pure logic in Lean.

Python string primitives used by the code (strip, startswith, endswith,
slicing, split, join, substring test) are embedded as executable functions
over the character list of a string, with the same semantics.
-/

namespace ConsultaApp

/-- Python str.strip(): remove whitespace from both ends of a string. -/
def stripStr (s : String) : String :=
  String.mk (((s.data.dropWhile Char.isWhitespace).reverse.dropWhile Char.isWhitespace).reverse)

/-- Python s.startswith(p), at the level of character lists. -/
def startsWithStr (s p : String) : Bool :=
  p.data.isPrefixOf s.data

/-- Python s.endswith(p), at the level of character lists. -/
def endsWithStr (s p : String) : Bool :=
  p.data.isSuffixOf s.data

/-- Python s[n:] (codepoint slicing from the left). -/
def dropStr (s : String) (n : Nat) : String :=
  String.mk (s.data.drop n)

/-- Python s[:-n]: remove the last n codepoints (empty result if too short). -/
def dropRightStr (s : String) (n : Nat) : String :=
  String.mk (s.data.take (s.data.length - n))

/-- Python pat in s for character lists: true when pat occurs contiguously. -/
def occursInList (pat : List Char) : List Char → Bool
  | [] => pat.isEmpty
  | c :: cs => pat.isPrefixOf (c :: cs) || occursInList pat cs

/-- Python text.split(sep) for the single-character separator newline,
including the empty pieces Python produces. -/
def splitCharList : List Char → List (List Char)
  | [] => [[]]
  | c :: cs =>
    if c = '\n' then [] :: splitCharList cs
    else
      match splitCharList cs with
      | [] => [[c]]
      | l :: ls => (c :: l) :: ls

/-- Python text.split(chr 10) lifted to strings. -/
def splitLines (s : String) : List String :=
  (splitCharList s.data).map String.mk

/-- Python sep.join(pieces). -/
def joinSep (sep : String) : List String → String
  | [] => ""
  | [t] => t
  | t₁ :: t₂ :: ts => t₁ ++ sep ++ joinSep sep (t₂ :: ts)

/-- Helper: an occurrence inside a list is still an occurrence after
prepending anything on the left. -/
theorem occursInList_append_left (pat x y : List Char) (h : occursInList pat y = true) :
    occursInList pat (x ++ y) = true := by
  induction x with
  | nil => simpa using h
  | cons a x ih =>
    simp [occursInList, ih]

/-! ## Segmenter (app.py lines 115-121 and 226-241) -/

/-- The 45-second window length in milliseconds (app.py line 231). -/
def segmentLengthMs : Nat := 45 * 1000

/-- Python range(start, stop, step) for a positive step (app.py line 237). -/
def rangeStep (start stop step : Nat) : List Nat :=
  if h : 0 < step ∧ start < stop then start :: rangeStep (start + step) stop step
  else []
termination_by stop - start
decreasing_by omega

/-- The (start, end) windows produced by transcribe_long_audio_in_segments
(app.py lines 236-241): for i in range(0, total, 45000), the window is
[i, min (i + 45000) total). -/
def segmentsOf (totalDurationMs : Nat) : List (Nat × Nat) :=
  (rangeStep 0 totalDurationMs segmentLengthMs).map
    (fun i => (i, min (i + segmentLengthMs) totalDurationMs))

/-- The split decision of app.py lines 115-121: a recording is processed
whole unless its duration in seconds (duration ms / 1000.0) exceeds 60,
which for an integer millisecond count is exactly the comparison 60000 < D.
The no-split branch handles the whole recording as one implicit window. -/
def transcriptionPlan (durationMs : Nat) : List (Nat × Nat) :=
  if 60000 < durationMs then segmentsOf durationMs else [(0, durationMs)]

/-- ceil(D / 45000), the expected number of 45-second windows. -/
def numSegments (durationMs : Nat) : Nat :=
  (durationMs + segmentLengthMs - 1) / segmentLengthMs

theorem rangeStep_closed_aux (L : Nat) (hL : 0 < L) :
    ∀ (m D a : Nat), D ≤ a + m * L →
      rangeStep a D L = (List.range ((D - a + L - 1) / L)).map (fun j => a + j * L) := by
  intro m
  induction m with
  | zero =>
    intro D a h
    simp only [Nat.zero_mul, Nat.add_zero] at h
    rw [rangeStep]
    have hc : ¬(0 < L ∧ a < D) := by omega
    rw [dif_neg hc]
    have h0 : D - a = 0 := by omega
    rw [h0]
    have hdiv : (0 + L - 1) / L = 0 := Nat.div_eq_of_lt (by omega)
    rw [hdiv]
    simp
  | succ m ih =>
    intro D a h
    rw [Nat.succ_mul] at h
    by_cases had : a < D
    · rw [rangeStep, dif_pos ⟨hL, had⟩, ih D (a + L) (by omega)]
      have hx : 1 ≤ D - a := by omega
      have hxsplit : D - (a + L) + L - 1 = if L ≤ D - a then D - a - 1 else L - 1 := by
        split <;> omega
      have hcount : (D - a + L - 1) / L = (D - a - 1) / L + 1 := by
        have harg : D - a + L - 1 = (D - a - 1) + L := by omega
        rw [harg, Nat.add_div_right _ hL]
      rw [hcount, List.range_succ_eq_map, List.map_cons, List.map_map]
      have hzero : a + 0 * L = a := by omega
      rw [hzero]
      have hn : (D - (a + L) + L - 1) / L = (D - a - 1) / L := by
        rw [hxsplit]
        split
        · rfl
        · rw [Nat.div_eq_of_lt (by omega), Nat.div_eq_of_lt (by omega)]
      rw [hn]
      congr 1
      apply List.map_congr_left
      intro j _
      simp only [Function.comp_apply, Nat.succ_mul]
      omega
    · rw [rangeStep]
      have hc : ¬(0 < L ∧ a < D) := by omega
      rw [dif_neg hc]
      have h0 : D - a = 0 := by omega
      rw [h0]
      have hdiv : (0 + L - 1) / L = 0 := Nat.div_eq_of_lt (by omega)
      rw [hdiv]
      simp

theorem rangeStep_closed (L : Nat) (hL : 0 < L) (D a : Nat) :
    rangeStep a D L = (List.range ((D - a + L - 1) / L)).map (fun j => a + j * L) := by
  apply rangeStep_closed_aux L hL D D a
  have : D ≤ D * L := Nat.le_mul_of_pos_right D hL
  omega

theorem segmentsOf_closed (D : Nat) :
    segmentsOf D = (List.range (numSegments D)).map
      (fun k => (k * segmentLengthMs, min ((k + 1) * segmentLengthMs) D)) := by
  unfold segmentsOf numSegments
  rw [rangeStep_closed segmentLengthMs (by norm_num [segmentLengthMs]) D 0, List.map_map]
  apply List.map_congr_left
  intro k _
  simp only [Function.comp_apply, Nat.zero_add, Nat.succ_mul]

/-- C1: a recording whose duration is at most 60000 ms is processed whole as
one window spanning the full recording, while a longer recording of D ms is
split into ceil(D / 45000) consecutive non-overlapping 45000 ms windows (the
last one possibly shorter) that start at 0, abut each other, and end at D. -/
theorem claim_C1_segmentation (d : Nat) :
    (d ≤ 60000 → transcriptionPlan d = [(0, d)])
    ∧ (60000 < d →
        transcriptionPlan d
          = (List.range (numSegments d)).map
              (fun k => (k * 45000, min ((k + 1) * 45000) d))
        ∧ (transcriptionPlan d).length = numSegments d
        ∧ 0 < numSegments d
        ∧ (∀ k, k + 1 < numSegments d →
            ((transcriptionPlan d)[k]?).map Prod.snd
              = ((transcriptionPlan d)[k + 1]?).map Prod.fst)
        ∧ ((transcriptionPlan d)[0]?).map Prod.fst = some 0
        ∧ ((transcriptionPlan d)[numSegments d - 1]?).map Prod.snd = some d) := by
  constructor
  · intro hle
    unfold transcriptionPlan
    rw [if_neg (by omega)]
  · intro hgt
    have hplan : transcriptionPlan d
        = (List.range (numSegments d)).map
            (fun k => (k * 45000, min ((k + 1) * 45000) d)) := by
      unfold transcriptionPlan
      rw [if_pos hgt, segmentsOf_closed]
      rfl
    have hdm := Nat.div_add_mod (d + segmentLengthMs - 1) segmentLengthMs
    have hmlt : (d + segmentLengthMs - 1) % segmentLengthMs < segmentLengthMs :=
      Nat.mod_lt _ (by norm_num [segmentLengthMs])
    have hL : segmentLengthMs = 45000 := by norm_num [segmentLengthMs]
    rw [hL] at hdm hmlt
    have hnum : numSegments d = (d + 45000 - 1) / 45000 := by
      unfold numSegments
      rw [hL]
    have hpos : 0 < numSegments d := by
      rw [hnum]
      omega
    refine ⟨hplan, ?_, hpos, ?_, ?_, ?_⟩
    · rw [hplan]
      simp
    · intro k hk
      rw [hplan]
      have hk1 : k < numSegments d := by omega
      have hk2 : k + 1 < numSegments d := hk
      rw [List.getElem?_map, List.getElem?_map, List.getElem?_range hk1, List.getElem?_range hk2]
      have hbound : (k + 1) * 45000 ≤ d := by
        rw [hnum] at hk2
        omega
      simp [min_eq_left hbound]
    · rw [hplan]
      rw [List.getElem?_map, List.getElem?_range hpos]
      simp
    · rw [hplan]
      have hlt : numSegments d - 1 < numSegments d := by omega
      rw [List.getElem?_map, List.getElem?_range hlt]
      have hle : d ≤ (numSegments d - 1 + 1) * 45000 := by
        rw [hnum] at hpos ⊢
        have h1 : (d + 45000 - 1) / 45000 - 1 + 1 = (d + 45000 - 1) / 45000 := by omega
        rw [h1]
        omega
      simp [min_eq_right hle]

/-- C1 witness: the theorem applied at a short recording (30000 ms, one
window) and at a long one (100000 ms). -/
theorem claim_C1_segmentation_witness :
    transcriptionPlan 30000 = [(0, 30000)]
    ∧ (transcriptionPlan 100000).length = numSegments 100000 :=
  ⟨(claim_C1_segmentation 30000).1 (by decide),
   ((claim_C1_segmentation 100000).2 (by decide)).2.1⟩

/-! ## Recognition outcomes and observable effects

The external speech service is abstracted by an oracle giving, for each
attempt index, the outcome of recognize_google: a transcript text, the
could-not-understand error, a request error, or a timeout. Observable
side effects of the code (API calls with their socket deadline, sleeps,
creation and deletion of temporary audio files, reads of audio sources)
are recorded as an event trace. -/

inductive RecogResult where
  | text (s : String)
  | unknownValue
  | requestError (msg : String)
  | timeoutErr (msg : String)
deriving DecidableEq

inductive Ev where
  | loadAudio
  | createTemp (name : String)
  | deleteTemp (name : String)
  | readAudio (converted : Bool) (calibrated : Bool)
  | apiCall (deadlineSecs : Nat)
  | sleepSecs (n : Nat)
deriving DecidableEq

/-! Failure-marker strings returned by app.py. -/

def notFoundMarker : String := "[Erro: Arquivo de áudio não encontrado]"

def tooSmallMarker : String := "[Erro: Arquivo de áudio muito pequeno ou vazio]"

def emptyAudioMarker : String := "[Áudio vazio ou muito baixo]"

def unrecognizedMarker : String :=
  "[Áudio não pôde ser compreendido - verifique a qualidade do áudio e tente falar mais claramente]"

def serviceErrorMarker (e : String) : String :=
  "[Erro no serviço de reconhecimento: " ++ e ++ "]"

def timeoutMarker : String :=
  "[Erro: Timeout na transcrição. O arquivo pode ser muito longo ou a conexão está lenta. Tente dividir o áudio em partes menores.]"

def processErrorMarker (e : String) : String :=
  "[Erro: Não foi possível processar o arquivo de áudio. O formato pode não ser suportado. Detalhes: " ++ e ++ "]"

def segmentErrorMarker (idx : Nat) : String :=
  "[Erro no segmento " ++ toString (idx + 1) ++ "]"

def silentSegmentMarker : String := "[Segmento silencioso]"

def segmentHeaderStr (n : Nat) : String := "[Segmento " ++ toString n ++ "]"

/-- The retry loop of the whole-recording path (app.py lines 176-218):
up to max_retries = 3 attempts, each an API call with the socket deadline
widened to 60 s; a timeout on a non-final attempt sleeps 2 s and retries,
a timeout on the final attempt returns the timeout marker; understanding
and request errors return their markers without retry; a successful but
whitespace-only text returns the empty-audio marker. The first argument of
the recursion is the number of loop iterations left, the second the
0-based attempt index. -/
def retryRecognize (svc : Nat → RecogResult) : Nat → Nat → String × List Ev
  | 0, _ => ("", [])
  | left + 1, attempt =>
    match svc attempt with
    | .text s => (if stripStr s = "" then emptyAudioMarker else s, [Ev.apiCall 60])
    | .unknownValue => (unrecognizedMarker, [Ev.apiCall 60])
    | .requestError e => (serviceErrorMarker e, [Ev.apiCall 60])
    | .timeoutErr _ =>
      match left with
      | 0 => (timeoutMarker, [Ev.apiCall 60])
      | l + 1 =>
        ((retryRecognize svc (l + 1) (attempt + 1)).1,
          Ev.apiCall 60 :: Ev.sleepSecs 2 :: (retryRecognize svc (l + 1) (attempt + 1)).2)

/-- Temporary file name for one segment; the code adds a timestamp
(app.py line 249), irrelevant here. -/
def segTempName (idx : Nat) : String := "segment_" ++ toString idx ++ ".wav"

/-- One iteration of the per-segment loop (app.py lines 244-284): the
segment is exported to a temp file, read back with 0.3 s calibration and
recognized by a single API call at a 45 s socket deadline; the read and
the call sit in one try whose generic handler appends the segment error
marker, and whose finally block removes the temp file. Note there is no
retry: only the outcome of attempt 0 of the oracle is consulted. -/
def processOneSegment (idx : Nat) (readRes : Except String String)
    (svc : Nat → RecogResult) : String × List Ev :=
  match readRes with
  | .error _ =>
    (segmentErrorMarker idx,
      [Ev.createTemp (segTempName idx), Ev.readAudio true true,
       Ev.deleteTemp (segTempName idx)])
  | .ok _ =>
    match svc 0 with
    | .text s =>
      (if stripStr s = "" then silentSegmentMarker else s,
        [Ev.createTemp (segTempName idx), Ev.readAudio true true,
         Ev.apiCall 45, Ev.deleteTemp (segTempName idx)])
    | _ =>
      (segmentErrorMarker idx,
        [Ev.createTemp (segTempName idx), Ev.readAudio true true,
         Ev.apiCall 45, Ev.deleteTemp (segTempName idx)])

/-- The loop of app.py lines 244-284 over the given segment indices,
collecting each transcription fragment and the event trace. -/
def processSegmentsAux (segRead : Nat → Except String String)
    (segSvc : Nat → Nat → RecogResult) : List Nat → List String × List Ev
  | [] => ([], [])
  | i :: rest =>
    ((processOneSegment i (segRead i) (segSvc i)).1
        :: (processSegmentsAux segRead segSvc rest).1,
      (processOneSegment i (segRead i) (segSvc i)).2
        ++ (processSegmentsAux segRead segSvc rest).2)

/-- The stitching step of app.py line 287:
a newline-newline join of the fragments, each under its 1-based
segment-numbered header. -/
def stitchSegments (ts : List String) : String :=
  joinSep "\n\n" (ts.enum.map (fun p => segmentHeaderStr (p.1 + 1) ++ "\n" ++ p.2))

/-- Recursive reading of the stitched transcript: fragment k (0-based)
appears under the header with number k+1, fragments in ascending order,
blank-line separated. -/
def stitchFrom (k : Nat) : List String → String
  | [] => ""
  | [t] => segmentHeaderStr (k + 1) ++ "\n" ++ t
  | t₁ :: t₂ :: ts =>
    segmentHeaderStr (k + 1) ++ "\n" ++ t₁ ++ "\n\n" ++ stitchFrom (k + 1) (t₂ :: ts)

/-- transcribe_long_audio_in_segments (app.py lines 226-294): split into the
45 s windows, process each segment in index order, stitch the fragments. -/
def transcribeLong (d : Nat) (segRead : Nat → Except String String)
    (segSvc : Nat → Nat → RecogResult) : String × List Ev :=
  (stitchSegments (processSegmentsAux segRead segSvc (List.range (segmentsOf d).length)).1,
    (processSegmentsAux segRead segSvc (List.range (segmentsOf d).length)).2)

theorem processSegmentsAux_fst (segRead : Nat → Except String String)
    (segSvc : Nat → Nat → RecogResult) (l : List Nat) :
    (processSegmentsAux segRead segSvc l).1
      = l.map (fun i => (processOneSegment i (segRead i) (segSvc i)).1) := by
  induction l with
  | nil => rfl
  | cons i rest ih => simp [processSegmentsAux, ih]

theorem stitch_eq_stitchFrom_aux (ts : List String) :
    ∀ k, joinSep "\n\n" ((ts.enumFrom k).map (fun p => segmentHeaderStr (p.1 + 1) ++ "\n" ++ p.2))
      = stitchFrom k ts := by
  induction ts with
  | nil => intro k; rfl
  | cons t ts ih =>
    intro k
    cases ts with
    | nil => rfl
    | cons t₂ ts' =>
      simp only [List.enumFrom, List.map_cons, joinSep, stitchFrom]
      rw [← ih (k + 1)]
      simp [List.enumFrom]

theorem stitch_eq_stitchFrom (ts : List String) : stitchSegments ts = stitchFrom 0 ts := by
  unfold stitchSegments
  rw [show ts.enum = ts.enumFrom 0 from rfl]
  exact stitch_eq_stitchFrom_aux ts 0

/-- C2: the stitched transcript of a long recording is the blank-line
separated concatenation, in ascending segment order, of each fragment
under its segment-numbered header; the fragment at each position depends only
on the read/recognition outcome of that same segment, a failing segment shows
the visible error marker for its own position (in particular when the
service cannot understand it), and a successful segment keeps its text. -/
theorem claim_C2_stitching (d : Nat) (segRead : Nat → Except String String)
    (segSvc : Nat → Nat → RecogResult) :
    (transcribeLong d segRead segSvc).1
      = stitchSegments ((List.range (segmentsOf d).length).map
          (fun i => (processOneSegment i (segRead i) (segSvc i)).1))
    ∧ (∀ ts : List String, stitchSegments ts = stitchFrom 0 ts)
    ∧ (∀ (i : Nat) (e : String) (svc : Nat → RecogResult),
        (processOneSegment i (Except.error e) svc).1 = segmentErrorMarker i)
    ∧ (∀ (i : Nat) (dat : String) (svc : Nat → RecogResult),
        svc 0 = RecogResult.unknownValue →
        (processOneSegment i (Except.ok dat) svc).1 = segmentErrorMarker i)
    ∧ (∀ (i : Nat) (dat s : String) (svc : Nat → RecogResult),
        svc 0 = RecogResult.text s → stripStr s ≠ "" →
        (processOneSegment i (Except.ok dat) svc).1 = s) := by
  refine ⟨?_, stitch_eq_stitchFrom, ?_, ?_, ?_⟩
  · unfold transcribeLong
    rw [processSegmentsAux_fst]
  · intro i e svc
    rfl
  · intro i dat svc h
    simp [processOneSegment, h]
  · intro i dat s svc h hs
    simp [processOneSegment, h, hs]

/-- C2 witness: applying the theorem at a concrete long recording where the
middle segment fails to be understood. -/
theorem claim_C2_stitching_witness :
    (processOneSegment 1 (Except.ok "dados") (fun _ => RecogResult.unknownValue)).1
      = segmentErrorMarker 1
    ∧ (processOneSegment 2 (Except.ok "dados") (fun _ => RecogResult.text "bom dia")).1
      = "bom dia" :=
  ⟨((claim_C2_stitching 100000 (fun _ => Except.ok "dados")
        (fun _ _ => RecogResult.unknownValue)).2.2.2.1 1 "dados" _ rfl),
   ((claim_C2_stitching 100000 (fun _ => Except.ok "dados")
        (fun _ _ => RecogResult.text "bom dia")).2.2.2.2 2 "dados" "bom dia" _ rfl
      (by decide))⟩

/-- Count of recognition API calls in a trace. -/
def countApiCalls (evs : List Ev) : Nat :=
  (evs.filter (fun e => match e with | .apiCall _ => true | _ => false)).length

/-- Oracle for which the first recognition attempt times out and every later
attempt would succeed. -/
def timeoutThenOk : Nat → RecogResult :=
  fun n => if n = 0 then RecogResult.timeoutErr "tempo esgotado" else RecogResult.text "olá"

/-- C3 counterexample: for a segment of a long recording, a single timeout
immediately yields the generic segment error marker after exactly one API
call — no retry happens — even though the retry loop of the whole-recording
path would have recovered the text on its second attempt with the same
oracle. -/
theorem claim_C3_counterexample :
    (processOneSegment 0 (Except.ok "dados") timeoutThenOk).1 = segmentErrorMarker 0
    ∧ countApiCalls (processOneSegment 0 (Except.ok "dados") timeoutThenOk).2 = 1
    ∧ (retryRecognize timeoutThenOk 3 0).1 = "olá"
    ∧ countApiCalls (retryRecognize timeoutThenOk 3 0).2 = 2 :=
  ⟨rfl, rfl, rfl, rfl⟩

/-- C3 as amended: the timeout retry policy exists only on the
whole-recording path — up to 3 attempts at a 60 s socket deadline with a
2 s sleep between timed-out attempts, the timeout marker appearing only
after the third consecutive timeout — while per-segment recognition of a
long recording performs at most one API call (45 s deadline) and a timeout
immediately produces the generic segment error marker. -/
theorem claim_C3_amended (svc : Nat → RecogResult) (idx : Nat)
    (readRes : Except String String) :
    (∀ e₀ e₁ e₂, svc 0 = RecogResult.timeoutErr e₀ → svc 1 = RecogResult.timeoutErr e₁ →
        svc 2 = RecogResult.timeoutErr e₂ →
        retryRecognize svc 3 0
          = (timeoutMarker,
             [Ev.apiCall 60, Ev.sleepSecs 2, Ev.apiCall 60, Ev.sleepSecs 2, Ev.apiCall 60]))
    ∧ (∀ e₀ s, svc 0 = RecogResult.timeoutErr e₀ → svc 1 = RecogResult.text s →
        stripStr s ≠ "" →
        retryRecognize svc 3 0 = (s, [Ev.apiCall 60, Ev.sleepSecs 2, Ev.apiCall 60]))
    ∧ countApiCalls (retryRecognize svc 3 0).2 ≤ 3
    ∧ countApiCalls (processOneSegment idx readRes svc).2 ≤ 1
    ∧ (∀ dat e, readRes = Except.ok dat → svc 0 = RecogResult.timeoutErr e →
        processOneSegment idx readRes svc
          = (segmentErrorMarker idx,
             [Ev.createTemp (segTempName idx), Ev.readAudio true true,
              Ev.apiCall 45, Ev.deleteTemp (segTempName idx)])) := by
  refine ⟨?_, ?_, ?_, ?_, ?_⟩
  · intro e₀ e₁ e₂ h0 h1 h2
    simp [retryRecognize, h0, h1, h2]
  · intro e₀ s h0 h1 hs
    simp [retryRecognize, h0, h1, hs]
  · rcases h0 : svc 0 with s | _ | e | e <;>
      simp [retryRecognize, h0, countApiCalls]
    rcases h1 : svc 1 with s | _ | e' | e' <;>
      simp [retryRecognize, h1, countApiCalls]
    rcases h2 : svc 2 with s | _ | e'' | e'' <;>
      simp [retryRecognize, h2, countApiCalls]
  · rcases readRes with e | dat
    · simp [processOneSegment, countApiCalls]
    · rcases h0 : svc 0 with s | _ | e | e <;>
        simp [processOneSegment, h0, countApiCalls]
  · intro dat e hread h0
    subst hread
    simp [processOneSegment, h0]

/-- C3 amended witness: the whole-recording path at an oracle that times out
on all three attempts. -/
theorem claim_C3_amended_witness :
    retryRecognize (fun _ => RecogResult.timeoutErr "sem resposta") 3 0
      = (timeoutMarker,
         [Ev.apiCall 60, Ev.sleepSecs 2, Ev.apiCall 60, Ev.sleepSecs 2, Ev.apiCall 60]) :=
  (claim_C3_amended (fun _ => RecogResult.timeoutErr "sem resposta") 0
      (Except.ok "dados")).1 "sem resposta" "sem resposta" "sem resposta" rfl rfl rfl

/-! ## Fallback chain for unreadable audio (app.py lines 104-174)

A strategy for obtaining audio data is characterized by whether it reads
the converted (16 kHz mono normalized) audio and whether it applies
ambient-noise calibration before recording. -/

structure Strategy where
  convertedInput : Bool
  calibrated : Bool
deriving DecidableEq

/-- The chain actually implemented by app.py lines 104-174: the preferred
converted read with calibration, then (in the conversion error handler,
lines 160-165) reading the original file still with calibration, then
(lines 168-172) reading the original file without calibration. -/
def fallbackChain : List Strategy := [⟨true, true⟩, ⟨false, true⟩, ⟨false, false⟩]

/-- Modelled from the spec: the chain described by claim C4 and spec 4.3
step 2 — after the preferred converted path, first a read without
calibration, then a read with neither calibration nor conversion. -/
def claimedFallbackChain : List Strategy := [⟨true, true⟩, ⟨true, false⟩, ⟨false, false⟩]

/-- The nested try/except structure of app.py lines 104-174, with the
attempt oracle giving the result of each strategy; exhausting every level
returns the process error marker built from the final diagnostic
(line 174). -/
def acquireAudioData (att : Strategy → Except String String) : Except String String :=
  match att ⟨true, true⟩ with
  | .ok dat => .ok dat
  | .error _ =>
    match att ⟨false, true⟩ with
    | .ok dat => .ok dat
    | .error _ =>
      match att ⟨false, false⟩ with
      | .ok dat => .ok dat
      | .error e => .error (processErrorMarker e)

/-- Running an explicit ordered list of strategies: first success wins,
otherwise the process error marker carries the last diagnostic. -/
def runStrategyChain (att : Strategy → Except String String) :
    List Strategy → String → Except String String
  | [], lastErr => .error (processErrorMarker lastErr)
  | s :: rest, lastErr =>
    match att s with
    | .ok dat => .ok dat
    | .error e => runStrategyChain att rest e

/-- Oracle that succeeds exactly on the unconverted, calibrated read. -/
def rawCalibOnly : Strategy → Except String String :=
  fun s => if s.convertedInput = false && s.calibrated = true
    then .ok "dados" else .error "falha"

/-- C4 counterexample: the second fallback level of the code reads the
original audio with calibration, not without it; on an input readable only
by that calibrated raw read, the code succeeds while the chain the claim
describes (converted read without calibration as level two) would fail all
levels and return the error marker. -/
theorem claim_C4_counterexample :
    acquireAudioData rawCalibOnly = .ok "dados"
    ∧ runStrategyChain rawCalibOnly claimedFallbackChain "" = .error (processErrorMarker "falha")
    ∧ fallbackChain ≠ claimedFallbackChain :=
  ⟨rfl, rfl, by decide⟩

/-- C4 as amended: when the preferred converted, calibrated read fails,
recognition falls back through exactly two further levels in order — the
original audio with calibration, then the original audio without
calibration — and only if all three levels fail does it return the
ServiceError marker carrying the diagnostic of the final level; equivalently,
the nested handlers run the ordered strategy list fallbackChain. -/
theorem claim_C4_amended (att : Strategy → Except String String) :
    acquireAudioData att = runStrategyChain att fallbackChain ""
    ∧ (∀ dat, att ⟨true, true⟩ = .ok dat → acquireAudioData att = .ok dat)
    ∧ (∀ e₁ dat, att ⟨true, true⟩ = .error e₁ → att ⟨false, true⟩ = .ok dat →
        acquireAudioData att = .ok dat)
    ∧ (∀ e₁ e₂ dat, att ⟨true, true⟩ = .error e₁ → att ⟨false, true⟩ = .error e₂ →
        att ⟨false, false⟩ = .ok dat → acquireAudioData att = .ok dat)
    ∧ (∀ e₁ e₂ e₃, att ⟨true, true⟩ = .error e₁ → att ⟨false, true⟩ = .error e₂ →
        att ⟨false, false⟩ = .error e₃ →
        acquireAudioData att = .error (processErrorMarker e₃)) := by
  refine ⟨?_, ?_, ?_, ?_, ?_⟩
  · rcases h1 : att ⟨true, true⟩ with e1 | d1 <;>
      rcases h2 : att ⟨false, true⟩ with e2 | d2 <;>
      rcases h3 : att ⟨false, false⟩ with e3 | d3 <;>
      simp [acquireAudioData, runStrategyChain, fallbackChain, h1, h2, h3]
  · intro dat h
    simp [acquireAudioData, h]
  · intro e₁ dat h1 h2
    simp [acquireAudioData, h1, h2]
  · intro e₁ e₂ dat h1 h2 h3
    simp [acquireAudioData, h1, h2, h3]
  · intro e₁ e₂ e₃ h1 h2 h3
    simp [acquireAudioData, h1, h2, h3]

/-- C4 amended witness: the theorem applied at an oracle for which every
level fails. -/
theorem claim_C4_amended_witness :
    acquireAudioData (fun _ => Except.error "sem suporte")
      = Except.error (processErrorMarker "sem suporte") :=
  (claim_C4_amended (fun _ => Except.error "sem suporte")).2.2.2.2
    "sem suporte" "sem suporte" "sem suporte" rfl rfl rfl

/-! ## The whole-recording transcription flow (app.py lines 80-224)

transcribe_audio_with_speech_recognition, as a function of an environment
of oracles: existence and byte size of the input file, the pydub decode
result (audio duration on success), the results of the three audio-read
levels, the recognition oracle, and the per-segment oracles for the long
branch. The returned trace records temp-file creation and deletion, audio
reads, API calls and sleeps, in program order. -/

structure RecogEnv where
  fileExists : Bool
  fileSize : Nat
  audioLoad : Option Nat
  readTempResult : Except String String
  readDirectResult : Except String String
  readRawResult : Except String String
  svc : Nat → RecogResult
  segRead : Nat → Except String String
  segSvc : Nat → Nat → RecogResult

/-- Temporary file name of the converted whole recording; the code adds a
timestamp (app.py line 134), irrelevant here. -/
def tempAudioName : String := "temp_audio.wav"

/-- The conversion error handler of app.py lines 157-174: read the original
file with calibration, then without; if both fail, return the process
error marker with the final diagnostic. On success the retry loop runs. -/
def fallbackRead (env : RecogEnv) (pre : List Ev) : String × List Ev :=
  match env.readDirectResult with
  | .ok _ =>
    ((retryRecognize env.svc 3 0).1,
      pre ++ [Ev.readAudio false true] ++ (retryRecognize env.svc 3 0).2)
  | .error _ =>
    match env.readRawResult with
    | .ok _ =>
      ((retryRecognize env.svc 3 0).1,
        pre ++ [Ev.readAudio false true, Ev.readAudio false false]
          ++ (retryRecognize env.svc 3 0).2)
    | .error e =>
      (processErrorMarker e,
        pre ++ [Ev.readAudio false true, Ev.readAudio false false])

/-- transcribe_audio_with_speech_recognition (app.py lines 80-224).
Existence and size checks come first (lines 86-94). A successful pydub
load yields the duration; durations over 60 s go to the segmented path
(lines 115-121). Otherwise the audio is exported to a temp file and read
back (lines 132-152); on success the temp file is deleted (line 155) and
the retry loop runs; if the read of the converted file raises, control
moves to the conversion error handler WITHOUT deleting the temp file. A
pydub load failure also lands in that handler before any temp file
exists. -/
def transcribeWhole (env : RecogEnv) : String × List Ev :=
  if env.fileExists = false then (notFoundMarker, [])
  else if env.fileSize < 1000 then (tooSmallMarker, [])
  else
    match env.audioLoad with
    | none => fallbackRead env [Ev.loadAudio]
    | some d =>
      if 60000 < d then
        ((transcribeLong d env.segRead env.segSvc).1,
          Ev.loadAudio :: (transcribeLong d env.segRead env.segSvc).2)
      else
        match env.readTempResult with
        | .ok _ =>
          ((retryRecognize env.svc 3 0).1,
            [Ev.loadAudio, Ev.createTemp tempAudioName, Ev.readAudio true true,
             Ev.deleteTemp tempAudioName] ++ (retryRecognize env.svc 3 0).2)
        | .error _ =>
          fallbackRead env
            [Ev.loadAudio, Ev.createTemp tempAudioName, Ev.readAudio true true]

def createdTemps (evs : List Ev) : List String :=
  evs.filterMap (fun e => match e with | .createTemp n => some n | _ => none)

def deletedTemps (evs : List Ev) : List String :=
  evs.filterMap (fun e => match e with | .deleteTemp n => some n | _ => none)

/-- Temp files created by a run but never deleted by it. -/
def leakedTemps (evs : List Ev) : List String :=
  (createdTemps evs).filter (fun n => !(deletedTemps evs).contains n)

/-- Environment of the C5 failing input: the file exists and is large
enough, pydub decodes a 30 s recording, the export succeeds but reading the
converted temp WAV raises; the fallback read of the original succeeds and
recognition returns a text. -/
def leakEnv : RecogEnv :=
  ⟨true, 5000, some 30000, Except.error "falha ao ler o wav convertido",
    Except.ok "dados", Except.ok "dados", fun _ => RecogResult.text "olá",
    fun _ => Except.ok "dados", fun _ _ => RecogResult.text "olá"⟩

/-- C5: counterexample trace. When the read of the exported temp WAV raises
(app.py lines 148-152), the unlink of line 155 is skipped and the except
handler of line 157 takes over; the fallback read succeeds and the function
returns a transcription normally — with the temp file still on disk. So a
temporary file survives an exit path, contradicting guaranteed cleanup. -/
theorem claim_C5_leak :
    (transcribeWhole leakEnv).1 = "olá"
    ∧ leakedTemps (transcribeWhole leakEnv).2 = [tempAudioName] :=
  ⟨rfl, rfl⟩

/-- C10: an existing input file under the 1000-byte minimum is rejected
with the too-small marker (app.py lines 89-94) before anything else
happens: the trace is empty, so no audio decoding, no read, and no
recognition call is attempted for that recording. -/
theorem claim_C10_min_size (env : RecogEnv) (hex : env.fileExists = true)
    (hsz : env.fileSize < 1000) :
    transcribeWhole env = (tooSmallMarker, []) := by
  unfold transcribeWhole
  rw [hex]
  simp [hsz]

/-- C10 witness: a 10-byte recording. -/
theorem claim_C10_min_size_witness :
    transcribeWhole
      ⟨true, 10, none, Except.ok "", Except.ok "", Except.ok "",
        fun _ => RecogResult.text "", fun _ => Except.ok "",
        fun _ _ => RecogResult.text ""⟩ = (tooSmallMarker, []) :=
  claim_C10_min_size _ rfl (by decide)

/-! ## Improve (app.py lines 296-324) -/

/-- The Gemini prompt of improve_transcription_with_gemini
(app.py lines 302-317), with the raw transcription spliced in. -/
def improvePromptText (raw : String) : String :=
  "\nVocê é um assistente especializado em melhorar transcrições médicas. \nSua tarefa é corrigir e melhorar a seguinte transcrição de uma consulta médica:\n\nTranscrição original:\n"
    ++ raw
    ++ "\n\nPor favor:\n1. Corrija erros de gramática e ortografia\n2. Melhore a pontuação e formatação\n3. Organize o texto de forma clara e profissional\n4. Mantenha todos os termos médicos e informações importantes\n5. Se possível, estruture em seções (ex: Queixa principal, Histórico, Exame físico, etc.)\n\nRetorne apenas o texto melhorado, sem comentários adicionais:\n"

/-- improve_transcription_with_gemini (app.py lines 296-324): pass-through
(with no service call, second component false) when the model is
unavailable, the text is empty, or the text starts with the failure-marker
bracket; otherwise one generate_content call whose stripped text is
returned, falling back to the original text if the call errors. -/
def improveTranscriptionRun (modelAvailable : Bool)
    (svc : String → Except String String) (raw : String) : String × Bool :=
  if modelAvailable = false ∨ raw = "" ∨ startsWithStr raw "[" = true then (raw, false)
  else
    match svc (improvePromptText raw) with
    | .ok t => (stripStr t, true)
    | .error _ => (raw, true)

/-- C6: Improve returns its input unchanged and attempts no service call
whenever the input starts with the failure-marker prefix or the generative
service is unavailable, and when the service call itself errors the
original unimproved text is returned. -/
theorem claim_C6_improve (m : Bool) (svc : String → Except String String) (raw : String) :
    (startsWithStr raw "[" = true → improveTranscriptionRun m svc raw = (raw, false))
    ∧ (m = false → improveTranscriptionRun m svc raw = (raw, false))
    ∧ (∀ e, svc (improvePromptText raw) = .error e →
        (improveTranscriptionRun m svc raw).1 = raw) := by
  refine ⟨?_, ?_, ?_⟩
  · intro h
    simp [improveTranscriptionRun, h]
  · intro h
    simp [improveTranscriptionRun, h]
  · intro e h
    unfold improveTranscriptionRun
    by_cases hg : m = false ∨ raw = "" ∨ startsWithStr raw "[" = true
    · rw [if_pos hg]
    · rw [if_neg hg, h]

/-- C6 witness: a failure-marker transcript with an erroring service. -/
theorem claim_C6_improve_witness :
    improveTranscriptionRun true (fun _ => Except.error "falha") "[Erro no segmento 1]"
      = ("[Erro no segmento 1]", false) :=
  (claim_C6_improve true (fun _ => Except.error "falha") "[Erro no segmento 1]").1 (by decide)

/-! ## Summarize prompt construction (app.py lines 862-913)

The two f-strings of generate_summary, decomposed into their literal parts
around the spliced-in custom instruction and transcription. The custom
instruction has already been stripped by the route handler (line 840), so
so the guard of the builder is Python truthiness: non-emptiness. -/

def customPromptHead : String :=
  "\nVocê é um assistente médico especializado em criar resumos de consultas médicas.\nAnalise a seguinte transcrição seguindo as instruções específicas do usuário:\n\nINSTRUÇÕES DO USUÁRIO:\n"

def customPromptMid : String := "\n\nTranscrição:\n"

def customPromptTail : String :=
  "\n\nPor favor, crie um resumo seguindo exatamente as instruções fornecidas pelo usuário acima.\nMantenha o resumo profissional e focado nos aspectos médicos mais importantes.\n"

def defaultPromptHead : String :=
  "\nVocê é um assistente médico especializado em criar resumos de consultas médicas.\nAnalise a seguinte transcrição e crie um resumo estruturado e profissional:\n\nTranscrição:\n"

def defaultPromptTail : String :=
  "\n\nPor favor, crie um resumo seguindo esta estrutura:\n\n## RESUMO DA CONSULTA\n\n**Data:** [Extrair se mencionada ou indicar como não especificada]\n**Paciente:** [Nome se mencionado ou \"Não especificado\"]\n\n### 🔍 QUEIXA PRINCIPAL\n[Motivo principal da consulta]\n\n### 📋 HISTÓRICO\n[Histórico relevante mencionado]\n\n### 🩺 EXAME FÍSICO\n[Achados do exame físico se mencionados]\n\n### 💊 CONDUTA/TRATAMENTO\n[Medicações, orientações ou tratamentos prescritos]\n\n### 📝 OBSERVAÇÕES IMPORTANTES\n[Pontos relevantes adicionais]\n\n### 🔄 RETORNO\n[Orientações sobre retorno se mencionadas]\n\nMantenha o resumo conciso, profissional e focado nos aspectos médicos mais importantes.\n"

/-- The prompt sent by generate_summary (app.py lines 862-913): the custom
instruction spliced verbatim when non-empty, otherwise the fixed
structured default. -/
def generateSummaryPrompt (customPrompt transcription : String) : String :=
  if customPrompt = "" then
    defaultPromptHead ++ transcription ++ defaultPromptTail
  else
    customPromptHead ++ customPrompt ++ customPromptMid ++ transcription ++ customPromptTail

/-- The structure markers of the default prompt: the summary header, date,
subject id, chief complaint, history, exam findings, plan/treatment,
notable remarks and follow-up sections. -/
def summarySectionHeaders : List String :=
  ["## RESUMO DA CONSULTA", "**Data:**", "**Paciente:**", "### 🔍 QUEIXA PRINCIPAL",
   "### 📋 HISTÓRICO", "### 🩺 EXAME FÍSICO", "### 💊 CONDUTA/TRATAMENTO",
   "### 📝 OBSERVAÇÕES IMPORTANTES", "### 🔄 RETORNO"]

set_option maxRecDepth 200000 in
/-- C7: a non-empty instruction is embedded verbatim (as a contiguous
substring) in the outbound prompt; with no instruction, the prompt carries
every section marker of the fixed eight-section structured layout; and any
prompt built from a non-empty instruction differs from any default prompt
(the two diverge at character 113, inside their fixed literal prefixes). -/
theorem claim_C7_summary_prompt (c t : String) :
    (c ≠ "" → ∃ pre post : List Char,
        (generateSummaryPrompt c t).data = pre ++ c.data ++ post)
    ∧ (c = "" → summarySectionHeaders.all
        (fun hdr => occursInList hdr.data (generateSummaryPrompt c t).data) = true)
    ∧ (∀ c' t', c' ≠ "" → generateSummaryPrompt c' t' ≠ generateSummaryPrompt "" t) := by
  refine ⟨?_, ?_, ?_⟩
  · intro hc
    refine ⟨customPromptHead.data,
      customPromptMid.data ++ t.data ++ customPromptTail.data, ?_⟩
    unfold generateSummaryPrompt
    rw [if_neg hc]
    simp [String.data_append, List.append_assoc]
  · intro hc
    subst hc
    have hform : (generateSummaryPrompt "" t).data
        = (defaultPromptHead.data ++ t.data) ++ defaultPromptTail.data := by
      unfold generateSummaryPrompt
      rw [if_pos rfl]
      simp [String.data_append, List.append_assoc]
    rw [hform]
    simp only [summarySectionHeaders, List.all_cons, List.all_nil, Bool.and_eq_true]
    refine ⟨?_, ?_, ?_, ?_, ?_, ?_, ?_, ?_, ?_, trivial⟩ <;>
      exact occursInList_append_left _ _ _ (by decide)
  · intro c' t' hc' heq
    have hdata : (generateSummaryPrompt c' t').data = (generateSummaryPrompt "" t).data := by
      rw [heq]
    unfold generateSummaryPrompt at hdata
    rw [if_neg hc', if_pos rfl] at hdata
    simp only [String.data_append, List.append_assoc] at hdata
    have h1 : (customPromptHead.data ++ (c'.data ++ (customPromptMid.data
          ++ (t'.data ++ customPromptTail.data))))[113]?
        = customPromptHead.data[113]? := List.getElem?_append_left (by decide)
    have h2 : (defaultPromptHead.data ++ (t.data ++ defaultPromptTail.data))[113]?
        = defaultPromptHead.data[113]? := List.getElem?_append_left (by decide)
    rw [hdata, h2] at h1
    exact absurd h1 (by decide)

/-- C7 witness: a concrete custom instruction is embedded verbatim. -/
theorem claim_C7_summary_prompt_witness :
    ∃ pre post : List Char,
      (generateSummaryPrompt "use tópicos" "olá").data = pre ++ "use tópicos".data ++ post :=
  (claim_C7_summary_prompt "use tópicos" "olá").1 (by decide)

/-! ## Document renderer (app.py lines 327-480)

Both renderers are modelled as producers of a sequence of typed blocks;
the visual styling applied to each block kind is irrelevant to the claims
and not modelled. The generation timestamp is a parameter. -/

inductive Block where
  | titleBlock (s : String)
  | genDate (s : String)
  | spacer (n : Nat)
  | heading (s : String)
  | subheading (s : String)
  | boldPara (s : String)
  | normalPara (s : String)
deriving DecidableEq

/-- Line classification of create_pdf_from_text (app.py lines 404-429):
the line is stripped; blank lines become a small spacer, a hash-hash-space
prefix a section heading (content re-stripped), a hash-hash-hash-space
prefix a subheading, a line both starting and ending with the bold marker
an emphasized paragraph, anything else a normal paragraph. -/
def classifyPdfLine (line : String) : Block :=
  if stripStr line = "" then Block.spacer 6
  else if startsWithStr (stripStr line) "## " then
    Block.heading (stripStr (dropStr (stripStr line) 3))
  else if startsWithStr (stripStr line) "### " then
    Block.subheading (stripStr (dropStr (stripStr line) 4))
  else if startsWithStr (stripStr line) "**" && endsWithStr (stripStr line) "**" then
    Block.boldPara (stripStr (dropRightStr (dropStr (stripStr line) 2) 2))
  else Block.normalPara (stripStr line)

/-- The for loop of app.py lines 404-429, appending one block per line to
the story accumulator. -/
def pdfLinesLoop (acc : List Block) : List String → List Block
  | [] => acc
  | l :: ls => pdfLinesLoop (acc ++ [classifyPdfLine l]) ls

/-- create_pdf_from_text (app.py lines 327-434): title paragraph, spacer,
generation-date paragraph, spacer, then the per-line blocks. -/
def createPdfStory (now text title : String) : List Block :=
  pdfLinesLoop
    [Block.titleBlock ("📋 " ++ title), Block.spacer 12,
     Block.genDate ("📅 Gerado em: " ++ now), Block.spacer 20]
    (splitLines text)

/-- The body blocks of the PDF rendering: one block per line. -/
def pdfBody (text : String) : List Block :=
  (splitLines text).map classifyPdfLine

/-- Line classification of the markdown branch of create_docx_from_text
(app.py lines 452-468): same guards as the PDF path, but contents are not
re-stripped and a blank line produces nothing. -/
def classifyDocxLine (line : String) : Option Block :=
  if startsWithStr (stripStr line) "## " then
    some (Block.heading (dropStr (stripStr line) 3))
  else if startsWithStr (stripStr line) "### " then
    some (Block.subheading (dropStr (stripStr line) 4))
  else if startsWithStr (stripStr line) "**" && endsWithStr (stripStr line) "**" then
    some (Block.boldPara (dropRightStr (dropStr (stripStr line) 2) 2))
  else if stripStr line = "" then none
  else some (Block.normalPara (stripStr line))

/-- The branch guard of create_docx_from_text (app.py line 452):
Python hash-hash in text. -/
def hasMarkdown (text : String) : Bool :=
  occursInList "##".data text.data

/-- The body paragraphs of the DOCX rendering (app.py lines 451-474): the
markdown branch when the text contains hash-hash, otherwise every
non-blank line as a plain paragraph (unstripped). -/
def docxBody (text : String) : List Block :=
  if hasMarkdown text then (splitLines text).filterMap classifyDocxLine
  else (splitLines text).filterMap
    (fun p => if stripStr p = "" then none else some (Block.normalPara p))

def isSpacer : Block → Bool
  | .spacer _ => true
  | _ => false

/-- The semantic kind of a block, forgetting its content. -/
def blockKindIdx : Block → Nat
  | .titleBlock _ => 0
  | .genDate _ => 1
  | .spacer _ => 2
  | .heading _ => 3
  | .subheading _ => 4
  | .boldPara _ => 5
  | .normalPara _ => 6

theorem pdfLinesLoop_eq (ls : List String) :
    ∀ acc, pdfLinesLoop acc ls = acc ++ ls.map classifyPdfLine := by
  induction ls with
  | nil => intro acc; simp [pdfLinesLoop]
  | cons l ls ih =>
    intro acc
    simp [pdfLinesLoop, ih]

/-- A line with the subheading prefix does not carry the heading prefix:
its third character is a hash, not the space the heading prefix needs. -/
theorem startsSub_not_heading (t : String) (h : startsWithStr t "### " = true) :
    startsWithStr t "## " = false := by
  unfold startsWithStr at h ⊢
  rw [show "### ".data = ['#', '#', '#', ' '] from rfl] at h
  rw [show "## ".data = ['#', '#', ' '] from rfl]
  cases hcs : t.data with
  | nil => rw [hcs] at h; simp [List.isPrefixOf] at h
  | cons c1 cs1 =>
    cases cs1 with
    | nil => rw [hcs] at h; simp [List.isPrefixOf] at h
    | cons c2 cs2 =>
      cases cs2 with
      | nil => rw [hcs] at h; simp [List.isPrefixOf] at h
      | cons c3 cs3 =>
        rw [hcs] at h
        simp only [List.isPrefixOf, Bool.and_eq_true, beq_iff_eq] at h
        obtain ⟨h1, h2, h3, -⟩ := h
        subst h1
        subst h2
        subst h3
        simp [List.isPrefixOf]

/-- A line with the subheading prefix does not carry the bold wrapper
prefix: it starts with a hash, not an asterisk. -/
theorem startsSub_not_bold (t : String) (h : startsWithStr t "### " = true) :
    startsWithStr t "**" = false := by
  unfold startsWithStr at h ⊢
  rw [show "### ".data = ['#', '#', '#', ' '] from rfl] at h
  rw [show "**".data = ['*', '*'] from rfl]
  cases hcs : t.data with
  | nil => rw [hcs] at h; simp [List.isPrefixOf] at h
  | cons c1 cs1 =>
    rw [hcs] at h
    simp only [List.isPrefixOf, Bool.and_eq_true, beq_iff_eq] at h
    obtain ⟨h1, -⟩ := h
    subst h1
    simp [List.isPrefixOf]

/-- C8: the PDF story is the title, a spacer, the generation timestamp, a
spacer, then exactly one block per input line in original order (a single
linear pass); blank lines become spacers, heading/subheading prefixes and
the bold wrapper map to their block kinds, and every other line — markers
included — falls through to a normal paragraph. -/
theorem claim_C8_renderer (now text title : String) :
    createPdfStory now text title
      = [Block.titleBlock ("📋 " ++ title), Block.spacer 12,
         Block.genDate ("📅 Gerado em: " ++ now), Block.spacer 20] ++ pdfBody text
    ∧ (∀ l, stripStr l = "" → classifyPdfLine l = Block.spacer 6)
    ∧ (∀ l, startsWithStr (stripStr l) "## " = true →
        classifyPdfLine l = Block.heading (stripStr (dropStr (stripStr l) 3)))
    ∧ (∀ l, startsWithStr (stripStr l) "### " = true →
        classifyPdfLine l = Block.subheading (stripStr (dropStr (stripStr l) 4)))
    ∧ (∀ l, startsWithStr (stripStr l) "## " = false →
        (startsWithStr (stripStr l) "**" && endsWithStr (stripStr l) "**") = true →
        stripStr l ≠ "" →
        classifyPdfLine l = Block.boldPara (stripStr (dropRightStr (dropStr (stripStr l) 2) 2)))
    ∧ (∀ l, stripStr l ≠ "" → startsWithStr (stripStr l) "## " = false →
        startsWithStr (stripStr l) "### " = false →
        (startsWithStr (stripStr l) "**" && endsWithStr (stripStr l) "**") = false →
        classifyPdfLine l = Block.normalPara (stripStr l)) := by
  refine ⟨?_, ?_, ?_, ?_, ?_, ?_⟩
  · unfold createPdfStory pdfBody
    rw [pdfLinesLoop_eq]
  · intro l h
    unfold classifyPdfLine
    rw [if_pos h]
  · intro l h
    have h0 : ¬(stripStr l = "") := by
      intro he
      rw [he] at h
      exact absurd h (by decide)
    unfold classifyPdfLine
    rw [if_neg h0, if_pos h]
  · intro l h
    have h0 : ¬(stripStr l = "") := by
      intro he
      rw [he] at h
      exact absurd h (by decide)
    have h1 : startsWithStr (stripStr l) "## " = false := startsSub_not_heading _ h
    unfold classifyPdfLine
    rw [if_neg h0, if_neg (by simp [h1]), if_pos h]
  · intro l h1 h3 h0
    have h2 : startsWithStr (stripStr l) "### " = false := by
      by_contra hcon
      rw [Bool.not_eq_false] at hcon
      rw [Bool.and_eq_true] at h3
      obtain ⟨ha, -⟩ := h3
      rw [startsSub_not_bold _ hcon] at ha
      exact absurd ha (by decide)
    unfold classifyPdfLine
    rw [if_neg h0, if_neg (by simp [h1]), if_neg (by simp [h2]), if_pos h3]
  · intro l h0 h1 h2 h3
    unfold classifyPdfLine
    rw [if_neg h0, if_neg (by simp [h1]), if_neg (by simp [h2]), if_neg (by simp [h3])]

/-- C8 witness: the heading rule of the theorem applied to a concrete
line. -/
theorem claim_C8_renderer_witness :
    classifyPdfLine " ## Nota " = Block.heading (stripStr (dropStr (stripStr " ## Nota ") 3)) :=
  (claim_C8_renderer "agora" "qualquer" "Consulta").2.2.1 " ## Nota " (by decide)

/-- For every line, the DOCX classifier drops exactly the lines the PDF
classifier turns into spacers, and agrees with it on the block kind of
every kept line. -/
theorem classifyLines_align (l : String) :
    (classifyDocxLine l = none → isSpacer (classifyPdfLine l) = true)
    ∧ (∀ b, classifyDocxLine l = some b →
        isSpacer (classifyPdfLine l) = false
          ∧ blockKindIdx (classifyPdfLine l) = blockKindIdx b) := by
  by_cases h0 : stripStr l = ""
  · have g1 : startsWithStr "" "## " = false := by decide
    have g2 : startsWithStr "" "### " = false := by decide
    have gA : startsWithStr "" "**" = false := by decide
    constructor
    · intro _
      simp [classifyPdfLine, h0, isSpacer]
    · intro b hb
      simp [classifyDocxLine, h0, g1, g2, gA] at hb
  · by_cases h1 : startsWithStr (stripStr l) "## " = true
    · constructor
      · intro hn
        simp [classifyDocxLine, h1] at hn
      · intro b hb
        simp only [classifyDocxLine, h1, if_true] at hb
        obtain rfl := Option.some.inj hb
        simp [classifyPdfLine, h0, h1, isSpacer, blockKindIdx]
    · by_cases h2 : startsWithStr (stripStr l) "### " = true
      · constructor
        · intro hn
          simp [classifyDocxLine, h1, h2] at hn
        · intro b hb
          simp only [classifyDocxLine, h1, h2, if_true, Bool.false_eq_true, if_false] at hb
          obtain rfl := Option.some.inj hb
          simp [classifyPdfLine, h0, h1, h2, isSpacer, blockKindIdx]
      · by_cases h3 : (startsWithStr (stripStr l) "**" && endsWithStr (stripStr l) "**") = true
        · constructor
          · intro hn
            simp [classifyDocxLine, h1, h2, h3] at hn
          · intro b hb
            simp only [classifyDocxLine, h1, h2, h3, if_true, Bool.false_eq_true, if_false] at hb
            obtain rfl := Option.some.inj hb
            simp [classifyPdfLine, h0, h1, h2, h3, isSpacer, blockKindIdx]
        · constructor
          · intro hn
            simp [classifyDocxLine, h1, h2, h3, h0] at hn
          · intro b hb
            simp only [classifyDocxLine, h1, h2, h3, h0, Bool.false_eq_true, if_false,
              if_neg h0] at hb
            obtain rfl := Option.some.inj hb
            simp [classifyPdfLine, h0, h1, h2, h3, isSpacer, blockKindIdx]

/-- C9 counterexample: on the markup with an emphasized line but no
hash-hash marker, the DOCX renderer takes its plain-text branch and emits
two normal paragraphs while the PDF renderer emits an emphasized paragraph
followed by a normal one — the two renderings do not carry the same
semantic block sequence. -/
theorem claim_C9_counterexample :
    ((pdfBody "**Bold line**\nPlain line").filter (fun b => !isSpacer b)).map blockKindIdx
      ≠ (docxBody "**Bold line**\nPlain line").map blockKindIdx := by
  decide

/-- C9 as amended: when the markup text contains the hash-hash marker, both
renderings carry the same ordered sequence of block kinds once the PDF
blank-line spacers are set aside (the DOCX rendering emits nothing for
blank lines, and keeps contents unstripped); without that marker the DOCX
rendering treats every non-blank line as a normal paragraph. -/
theorem claim_C9_amended (text : String) (h : hasMarkdown text = true) :
    ((pdfBody text).filter (fun b => !isSpacer b)).map blockKindIdx
      = (docxBody text).map blockKindIdx := by
  unfold docxBody pdfBody
  rw [if_pos h]
  generalize splitLines text = ls
  induction ls with
  | nil => rfl
  | cons l ls ih =>
    simp only [List.map_cons, List.filterMap_cons, List.filter_cons]
    cases hdoc : classifyDocxLine l with
    | none =>
      have hsp := (classifyLines_align l).1 hdoc
      simp [hsp, ih]
    | some b =>
      obtain ⟨hsp, hkind⟩ := (classifyLines_align l).2 b hdoc
      simp [hsp, hkind, ih]

/-- C9 amended witness: a concrete markup containing the hash-hash
marker. -/
theorem claim_C9_amended_witness :
    ((pdfBody "## Resumo\n\n**Nota**").filter (fun b => !isSpacer b)).map blockKindIdx
      = (docxBody "## Resumo\n\n**Nota**").map blockKindIdx :=
  claim_C9_amended "## Resumo\n\n**Nota**" (by decide)

end ConsultaApp
